import Mathlib

/-!
Verification development for the speech-to-text proxy job pipeline
(`src/main.py`, `src/celery_worker.py`, `src/providers.py`, `src/llm.py`,
`src/webhook.py`, `src/db.py`).

The Python code is shallowly embedded:
* Python exceptions are modelled with `Except String` (abbreviated `Py`):
  a `.error` value is a raised exception, `try/except` blocks become
  pattern matches on that value.
* External collaborators (the provider SDKs, the `wave` header parser,
  the HTTP client, the LLM client) are modelled as oracles: universally
  quantified functions that may return a value or raise, so every theorem
  holds for every possible behaviour of the outside world.
* Machine integers are `Nat`; the only arithmetic is on byte lengths and
  WAV header fields, far below any overflow boundary.
-/

namespace SpeechProxy

/-- A Python computation that either returns normally or raises an
exception (carried as a descriptive string). -/
abbrev Py (α : Type) := Except String α

instance (ε α : Type) [DecidableEq ε] [DecidableEq α] :
    DecidableEq (Except ε α) := fun x y =>
  match x, y with
  | .ok a, .ok b =>
    if h : a = b then isTrue (by rw [h])
    else isFalse (fun hh => absurd (Except.ok.inj hh) h)
  | .error a, .error b =>
    if h : a = b then isTrue (by rw [h])
    else isFalse (fun hh => absurd (Except.error.inj hh) h)
  | .ok _, .error _ => isFalse (fun hh => Except.noConfusion hh)
  | .error _, .ok _ => isFalse (fun hh => Except.noConfusion hh)

/-- Python truthiness of an `Optional[str]` value: `None` and the empty
string are falsy, every other string is truthy. -/
def pyTruthyStr : Option String → Bool
  | none => false
  | some s => !s.isEmpty

/-! ## Validator (`src/main.py`, `validate_audio_file`) -/

/-- Python `MIN_FILE_SIZE = 100` in `src/main.py`. -/
def MIN_FILE_SIZE : Nat := 100

/-- Python `MAX_FILE_SIZE = 10 * 1024 * 1024` in `src/main.py`. -/
def MAX_FILE_SIZE : Nat := 10 * 1024 * 1024

/-- Python `SUPPORTED_EXTENSIONS = (".mp3", ".wav", ".m4a", ".ogg")`. -/
def SUPPORTED_EXTENSIONS : List String := [".mp3", ".wav", ".m4a", ".ogg"]

/-- Index of the last occurrence of `c` in `l`, or `-1` when absent:
the semantics of Python `str.rfind`. -/
def rfindChar (l : List Char) (c : Char) : Int :=
  (l.foldl (fun acc ch => (acc.1 + 1, if ch = c then acc.1 else acc.2))
    ((0 : Int), (-1 : Int))).2

/-- The extension part of `os.path.splitext` (posix rules): the suffix
from the last dot, provided that dot lies after the last `/` and the
base name before it is not made of dots only. -/
def splitext_ext (p : String) : String :=
  let l := p.data
  let sepIndex := rfindChar l '/'
  let dotIndex := rfindChar l '.'
  if sepIndex < dotIndex then
    let stem := (l.drop (sepIndex + 1).toNat).take (dotIndex - sepIndex - 1).toNat
    if stem.any (fun ch => ch ≠ '.') then String.mk (l.drop dotIndex.toNat)
    else ""
  else ""

/-- Python `os.path.splitext(filename)[1].lower()` as computed at the top of
`validate_audio_file`. -/
def fileExt (p : String) : String :=
  String.mk ((splitext_ext p).data.map Char.toLower)

/-- The fields of a successfully parsed WAV header that the validator
consumes: `wavf.getnframes()` and `wavf.getframerate()`. -/
structure WavInfo where
  nframes : Nat
  framerate : Nat
deriving DecidableEq, Repr

/-- An uploaded file as the validator observes it: its name, the byte
length of its content, and the outcome of parsing the content as a WAV
header (`none` models `wave.open` raising). The validator reads nothing
else from the bytes. -/
structure UploadFile where
  fname : String
  size : Nat
  wav : Option WavInfo
deriving DecidableEq, Repr

/-- A raised Python exception as the FastAPI layer distinguishes them. -/
inductive PyExn where
  /-- `fastapi.HTTPException(status_code, detail)`. -/
  | httpException (statusCode : Nat) (detail : String)
  /-- Any other exception (`wave.Error`, `ZeroDivisionError`, ...). -/
  | otherExn (msg : String)
deriving DecidableEq, Repr

/-- The body of the `try` block guarding the WAV header inspection in
`validate_audio_file`. Note the three rule violations raise
`HTTPException` values from inside this block; `duration < 1.0` and
`duration > 300.0` on `duration = nframes / framerate` are compared
exactly (`nframes < framerate`, `nframes > 300 * framerate`).
`framerate = 0` models the `ZeroDivisionError` of the division. -/
def wavCheckBody (parsed : Option WavInfo) : Except PyExn Unit :=
  match parsed with
  | none => .error (.otherExn "wave.Error")
  | some w =>
    if w.framerate = 0 then .error (.otherExn "ZeroDivisionError")
    else if w.nframes < w.framerate then
      .error (.httpException 400 "Audio too short.")
    else if w.nframes > 300 * w.framerate then
      .error (.httpException 400 "Audio too long.")
    else if w.framerate < 8000 then
      .error (.httpException 400 "Sample rate too low.")
    else .ok ()

/-- Python `validate_audio_file` from `src/main.py`: extension allow-list, then
minimum size (`not audio_bytes or len < MIN`), then maximum size, then —
for `.wav` only — the header inspection, whose `except Exception:`
handler replaces EVERY exception escaping the `try` block (including the
specific `HTTPException`s raised inside it) by
`HTTPException(400, "Corrupted or invalid WAV file.")`. On success the
function returns the audio bytes, represented here by their length. -/
def validate_audio_file (file : UploadFile) : Except PyExn Nat :=
  let ext := fileExt file.fname
  if ¬ (ext ∈ SUPPORTED_EXTENSIONS) then
    .error (.httpException 400 "Unsupported file type.")
  else if file.size = 0 ∨ file.size < MIN_FILE_SIZE then
    .error (.httpException 400 "File is empty or too small.")
  else if file.size > MAX_FILE_SIZE then
    .error (.httpException 400 "File is too large.")
  else if ext = ".wav" then
    match wavCheckBody file.wav with
    | .ok _ => .ok file.size
    | .error _ => .error (.httpException 400 "Corrupted or invalid WAV file.")
  else .ok file.size

/-! ## Providers (`src/providers.py`) -/

/-- The environment variables the providers read (empty string models an
unset variable, matching `os.getenv(..., "")`). -/
structure Env where
  OPENAI_API_KEY : String
  ELEVENLABS_API_KEY : String
  GOOGLE_API_KEY : String
  AWS_ACCESS_KEY_ID : String
  AWS_SECRET_ACCESS_KEY : String
deriving Repr

/-- The observable part of an `httpx` response as `GoogleProvider` uses
it: the status code (for `raise_for_status`) and the result of running
`resp.json()["results"][0]["alternatives"][0]["transcript"]`, which may
raise (JSON decode error, `KeyError`, `IndexError`). -/
structure HttpResp where
  statusCode : Nat
  extractTranscript : Py String

/-- Oracles for every external SDK / network call a provider makes; each
may raise arbitrarily, so the theorems quantify over all behaviours. -/
structure ProviderOracles where
  /-- `OpenAI(api_key=api_key)` client construction in `OpenAIProvider`:
  in the source this statement sits OUTSIDE the `try` block, so an
  exception it raises (e.g. malformed base-URL / proxy environment
  configuration in the SDK) propagates out of `transcribe`. -/
  openaiClientCtor : Py Unit
  /-- `client.audio.transcriptions.create(...)` in `OpenAIProvider`. -/
  openaiCreate : List Nat → String → Py String
  /-- `ElevenLabs(...)` construction plus `client.speech_to_text(...)`:
  on success yields the returned dict's optional `text` entry
  (`transcript['text'] if 'text' in transcript else None`). -/
  elevenlabsSpeechToText : List Nat → String → Py (Option String)
  /-- `httpx.post(...)` to the Google endpoint (argument: the audio
  bytes; the pure base64 encoding is absorbed into the oracle). -/
  googlePost : List Nat → Py HttpResp
  /-- `boto3.client('s3')`/`boto3.client('transcribe')` construction. -/
  botoClients : Py Unit
  /-- `s3.put_object(...)`. -/
  s3PutObject : List Nat → String → Py Unit
  /-- `transcribe.start_transcription_job(...)`. -/
  startTranscriptionJob : String → Py Unit
  /-- The two `uuid.uuid4()` draws in `AWSProvider`. -/
  uuidA : String
  uuidB : String

/-- Python `OpenAIProvider.transcribe`: missing key yields `None`; the
`OpenAI(api_key=api_key)` construction is NOT guarded — only the
subsequent `.create(...)` call sits in the `try` whose handler returns
`None` — so a constructor exception propagates past the boundary. -/
def openai_transcribe (env : Env) (ora : ProviderOracles)
    (audioBytes : List Nat) (filename : String) : Py (Option String) :=
  if env.OPENAI_API_KEY.isEmpty then .ok none
  else
    match ora.openaiClientCtor with
    | .error e => .error e
    | .ok _ =>
      match ora.openaiCreate audioBytes filename with
      | .ok transcript => .ok (some transcript)
      | .error _ => .ok none

/-- Python `ElevenLabsProvider.transcribe`: missing key yields `None`; client
construction and call sit in a `try` whose handler returns `None`. -/
def elevenlabs_transcribe (env : Env) (ora : ProviderOracles)
    (audioBytes : List Nat) (filename : String) : Py (Option String) :=
  if env.ELEVENLABS_API_KEY.isEmpty then .ok none
  else
    match ora.elevenlabsSpeechToText audioBytes filename with
    | .ok entry => .ok entry
    | .error _ => .ok none

/-- Python `GoogleProvider.transcribe`: missing key yields the demo placeholder
string; otherwise POST, `raise_for_status` (raises when the status code
is 4xx/5xx), and response extraction all sit in a `try` whose handler
returns `None`. -/
def google_transcribe (env : Env) (ora : ProviderOracles)
    (audioBytes : List Nat) (_filename : String) : Py (Option String) :=
  if env.GOOGLE_API_KEY.isEmpty then
    .ok (some "Google STT (demo): This is a fake transcript.")
  else
    let tryBody : Py String := do
      let resp ← ora.googlePost audioBytes
      if 400 ≤ resp.statusCode then throw "HTTPStatusError" else pure ()
      resp.extractTranscript
    match tryBody with
    | .ok transcript => .ok (some transcript)
    | .error _ => .ok none

/-- Python `AWSProvider.transcribe`: missing credentials yield the demo
placeholder; otherwise client construction, S3 upload and job submission
sit in a `try` with two handlers, both returning `None`. -/
def aws_transcribe (env : Env) (ora : ProviderOracles)
    (audioBytes : List Nat) (filename : String) : Py (Option String) :=
  if env.AWS_ACCESS_KEY_ID.isEmpty || env.AWS_SECRET_ACCESS_KEY.isEmpty then
    .ok (some "AWS Transcribe (demo): This is a fake transcript.")
  else
    let tryBody : Py String := do
      let _ ← ora.botoClients
      let s3Key := "uploads/" ++ ora.uuidA ++ "_" ++ filename
      let _ ← ora.s3PutObject audioBytes s3Key
      let jobName := "job-" ++ ora.uuidB
      let _ ← ora.startTranscriptionJob jobName
      pure ("AWS Transcribe job started: " ++ jobName ++
        " (polling not implemented in demo)")
    match tryBody with
    | .ok transcript => .ok (some transcript)
    | .error _ => .ok none

/-- The four registered provider implementations. -/
inductive ProviderName where
  | openai
  | elevenlabs
  | google
  | aws
deriving DecidableEq, Repr

/-- The `.name` attribute of each provider class. -/
def providerKeyOf : ProviderName → String
  | .openai => "openai"
  | .elevenlabs => "elevenlabs"
  | .google => "google"
  | .aws => "aws"

/-- Python `PROVIDERS = [OpenAIProvider(), ElevenLabsProvider(), GoogleProvider(), AWSProvider()]`. -/
def PROVIDERS : List ProviderName := [.openai, .elevenlabs, .google, .aws]

/-- Python `PROVIDER_MAP = {p.name: p for p in PROVIDERS}`, as a lookup by key. -/
def PROVIDER_MAP_get (key : String) : Option ProviderName :=
  PROVIDERS.find? (fun p => providerKeyOf p = key)

/-- Dispatch of `.transcribe` on the registered providers. -/
def provider_transcribe : ProviderName → Env → ProviderOracles →
    List Nat → String → Py (Option String)
  | .openai => openai_transcribe
  | .elevenlabs => elevenlabs_transcribe
  | .google => google_transcribe
  | .aws => aws_transcribe

/-! ## Summarizer (`src/llm.py`, `llm_summary`) -/

/-- Python `llm_summary`: returns `None` when the API key or the text is falsy;
the chat-completion call and response field access sit in a `try` whose
handler returns `None`; on success the content is `.strip()`ped. The
oracle stands for `client.chat.completions.create(...).choices[0].message.content`. -/
def llm_summary (apiKey : String) (oracleLLM : String → Py String)
    (text : String) : Py (Option String) :=
  if apiKey.isEmpty || text.isEmpty then .ok none
  else
    match oracleLLM text with
    | .ok content => .ok (some content.trim)
    | .error _ => .ok none

/-- The value `llm_summary` returns (it never raises; see
`llm_summary_never_raises`). -/
def llmVal (apiKey : String) (oracleLLM : String → Py String)
    (text : String) : Option String :=
  match llm_summary apiKey oracleLLM text with
  | .ok v => v
  | .error _ => none

/-! ## Notifier (`src/webhook.py`, `send_webhook`) -/

/-- The JSON payload `{job_id, status, text, summary}` POSTed to the
webhook URL. -/
structure WebhookPayload where
  job_id : String
  status : String
  text : Option String
  summary : Option String
deriving DecidableEq, Repr

/-- Python `send_webhook`: one `httpx.post(webhook_url, json=payload)` attempt
inside a `try` whose handler logs and returns. The result pairs the
Python outcome (always a normal return) with the list of POST attempts
made. -/
def send_webhook (net : String → WebhookPayload → Py Unit)
    (webhookUrl : String) (payload : WebhookPayload) :
    Py Unit × List (String × WebhookPayload) :=
  match net webhookUrl payload with
  | .ok _ => (.ok (), [(webhookUrl, payload)])
  | .error _ => (.ok (), [(webhookUrl, payload)])

/-! ## Job Store (`src/db.py`) -/

/-- A `TranscriptionHistory` row (`created_at` is a DB-side default and
carries no pipeline information, so it is omitted). -/
structure Row where
  id : String
  filename : String
  provider : String
  status : String
  text : Option String
  summary : Option String
  webhook_url : Option String
  user_id : Option String
deriving DecidableEq, Repr

/-- Python `session.merge(hist); session.commit()`: insert-or-update keyed by
the primary key `id` — an existing row with the same id is overwritten,
otherwise the row is appended. -/
def upsertRow (store : List Row) (r : Row) : List Row :=
  if store.any (fun x => x.id = r.id) then
    store.map (fun x => if x.id = r.id then r else x)
  else store ++ [r]

/-- Python `session.query(TranscriptionHistory).filter_by(id=...).first()`. -/
def getById (store : List Row) (i : String) : Option Row :=
  store.find? (fun x => x.id = i)

/-! ## Worker (`src/celery_worker.py`, `process_transcription_job`) -/

/-- Python `max_retries=3` on the Celery task decorator. -/
def MAX_RETRIES : Nat := 3

/-- The queue-message arguments of one job. -/
structure JobArgs where
  job_id : String
  filename : String
  provider_name : String
  webhook_url : Option String
  user_id : Option String
deriving DecidableEq, Repr

/-- Outcome of one execution of the Celery task body.

`self.retry(exc=e)` in Celery RAISES: a `Retry` exception while
`self.request.retries < max_retries` (the worker re-queues the task),
and re-raises `exc` once the retries are exhausted. Raising inside the
`except` block aborts the function, so the persistence and webhook code
after the `try` statement runs only when no exception occurred. -/
inductive AttemptResult where
  /-- Fell through to `session.merge`/`commit` (writing `row`) and the
  optional `send_webhook` call (`posts` lists the POST attempts). -/
  | finalized (row : Row) (posts : List (String × WebhookPayload))
  /-- `self.retry` raised `Retry`: the task is re-queued; nothing was
  written to the store and no webhook was sent. -/
  | retryScheduled (exn : String)
  /-- `self.retry` re-raised the original exception (retries exhausted):
  the task terminates with an error; nothing was written to the store
  and no webhook was sent. -/
  | crashed (exn : String)
deriving DecidableEq, Repr

/-- The `TranscriptionHistory` row the worker builds on fall-through:
`TranscriptionHistory(id=job_id, filename=..., provider=..., status=...,
text=..., summary=..., webhook_url=..., user_id=...)`. -/
def finalRow (args : JobArgs) (status : String) (text summary : Option String) :
    Row :=
  ⟨args.job_id, args.filename, args.provider_name, status, text, summary,
    args.webhook_url, args.user_id⟩

/-- The webhook step after the commit: `if webhook_url:` (Python
truthiness) then `send_webhook(webhook_url, {job_id, status, text,
summary})`; the result is the list of POST attempts made. -/
def webhookPosts (net : String → WebhookPayload → Py Unit) (args : JobArgs)
    (status : String) (text summary : Option String) :
    List (String × WebhookPayload) :=
  if pyTruthyStr args.webhook_url then
    (send_webhook net (args.webhook_url.getD "")
      ⟨args.job_id, status, text, summary⟩).2
  else []

/-- One execution of `process_transcription_job`:
`status = "failed"; text = None; summary = None`, then the `try` block
calls `transcribe` and, when the result is truthy, the summarizer and
`status = "completed"`; any exception goes to `self.retry`. A normal
fall-through builds the `TranscriptionHistory` row, merges and commits
it, and — when `webhook_url` is truthy — calls `send_webhook`. -/
def process_attempt (args : JobArgs) (transcribeResult : Py (Option String))
    (summarize : String → Py (Option String))
    (net : String → WebhookPayload → Py Unit)
    (retries : Nat) : AttemptResult :=
  let tryBody : Py (String × Option String × Option String) :=
    match transcribeResult with
    | .error e => .error e
    | .ok none => .ok ("failed", none, none)
    | .ok (some s) =>
      if s.isEmpty then .ok ("failed", some s, none)
      else
        match summarize s with
        | .error e => .error e
        | .ok summ => .ok ("completed", some s, summ)
  match tryBody with
  | .error e =>
    if retries < MAX_RETRIES then .retryScheduled e else .crashed e
  | .ok (status, text, summary) =>
    .finalized (finalRow args status text summary)
      (webhookPosts net args status text summary)

/-- The store writes performed by one attempt. -/
def attemptWrites : AttemptResult → List Row
  | .finalized r _ => [r]
  | _ => []

/-- The webhook POST attempts performed by one attempt. -/
def attemptPosts : AttemptResult → List (String × WebhookPayload)
  | .finalized _ ps => ps
  | _ => []

/-- Celery's retry loop: run the task body; while it raises `Retry`,
re-queue and re-run with the retry counter incremented. `budget` is a
fuel bound (`MAX_RETRIES + 1` suffices, since `retryScheduled` only
arises while `retries < MAX_RETRIES`). Accumulates every store write
and webhook POST across the attempts. -/
def runJobFrom (transcribeAt : Nat → Py (Option String)) (args : JobArgs)
    (summarize : String → Py (Option String))
    (net : String → WebhookPayload → Py Unit) :
    Nat → Nat → List Row → List (String × WebhookPayload) →
    AttemptResult × List Row × List (String × WebhookPayload)
  | 0, retries, writes, posts =>
    let r := process_attempt args (transcribeAt retries) summarize net retries
    (r, writes ++ attemptWrites r, posts ++ attemptPosts r)
  | budget + 1, retries, writes, posts =>
    let r := process_attempt args (transcribeAt retries) summarize net retries
    match r with
    | .retryScheduled _ =>
      runJobFrom transcribeAt args summarize net budget (retries + 1)
        (writes ++ attemptWrites r) (posts ++ attemptPosts r)
    | _ => (r, writes ++ attemptWrites r, posts ++ attemptPosts r)

/-- A whole job execution: attempts start at retry counter 0. -/
def runJob (transcribeAt : Nat → Py (Option String)) (args : JobArgs)
    (summarize : String → Py (Option String))
    (net : String → WebhookPayload → Py Unit) :
    AttemptResult × List Row × List (String × WebhookPayload) :=
  runJobFrom transcribeAt args summarize net (MAX_RETRIES + 1) 0 [] []

/-! ## Submission API (`src/main.py`, `transcribe_async`) -/

/-- The `{job_id, status}` body returned on successful submission. -/
structure SubmitJobResponse where
  job_id : String
  status : String
deriving DecidableEq, Repr

/-- The Celery task message
`(job_id, audio_bytes, filename, provider, webhook_url, user_id)`
(audio bytes represented by their length, as in `UploadFile`). -/
structure TaskMessage where
  job_id : String
  audioSize : Nat
  filename : String
  provider : String
  webhook_url : Option String
  user_id : Option String
deriving DecidableEq, Repr

/-- Python `transcribe_async`: reject an unknown provider key with 400, then
validate; only then generate the job id (`freshId` models the
`uuid.uuid4()` draw) and enqueue the task. The endpoint itself never
touches the Job Store, so the store is threaded through unchanged to
make that observable. -/
def transcribe_async (store : List Row) (file : UploadFile)
    (providerKey : String) (webhookUrl userId : Option String)
    (freshId : String) :
    Except PyExn (SubmitJobResponse × TaskMessage) × List Row :=
  if ¬ (PROVIDER_MAP_get providerKey).isSome then
    (.error (.httpException 400 "Unknown provider."), store)
  else
    match validate_audio_file file with
    | .error e => (.error e, store)
    | .ok audioSize =>
      (.ok (⟨freshId, "queued"⟩,
        ⟨freshId, audioSize, file.fname, providerKey, webhookUrl, userId⟩),
       store)

/-! ## Helper lemmas -/

/-- Python `send_webhook` makes exactly one POST attempt and returns normally
whatever the network does: the `except` handler swallows every failure. -/
theorem send_webhook_eq (net : String → WebhookPayload → Py Unit)
    (u : String) (p : WebhookPayload) :
    send_webhook net u p = (Except.ok (), [(u, p)]) := by
  unfold send_webhook
  cases hnp : net u p <;> rfl

/-- The worker's webhook step posts exactly once when the URL is truthy
and not at all otherwise. -/
theorem webhookPosts_eq (net : String → WebhookPayload → Py Unit)
    (args : JobArgs) (status : String) (text summary : Option String) :
    webhookPosts net args status text summary =
      if pyTruthyStr args.webhook_url then
        [(args.webhook_url.getD "", ⟨args.job_id, status, text, summary⟩)]
      else [] := by
  unfold webhookPosts
  rw [send_webhook_eq]

/-! ## Claims about the validator and the submission endpoint -/

/-- Claim C2, evaluated on the code: a well-formed WAV upload of valid
size that violates the duration or sample-rate rules is rejected with
400 but with detail "Corrupted or invalid WAV file.", not the documented
specific reason — the specific `HTTPException`s raised inside the `try`
block are themselves caught by `except Exception`. Inputs: 200-byte
`.wav` uploads whose headers parse to 4000 frames at 8000 Hz (0.5 s,
too short), 3 200 000 frames at 8000 Hz (400 s, too long), 8000 frames
at 4000 Hz (rate too low), and one whose header fails to parse (the only
case where "corrupted" agrees with the claim). -/
theorem claim2_wav_reasons_collapse :
    validate_audio_file ⟨"clip.wav", 200, some ⟨4000, 8000⟩⟩ =
      .error (.httpException 400 "Corrupted or invalid WAV file.")
    ∧ validate_audio_file ⟨"clip.wav", 200, some ⟨4000, 8000⟩⟩ ≠
      .error (.httpException 400 "Audio too short.")
    ∧ validate_audio_file ⟨"clip.wav", 200, some ⟨3200000, 8000⟩⟩ =
      .error (.httpException 400 "Corrupted or invalid WAV file.")
    ∧ validate_audio_file ⟨"clip.wav", 200, some ⟨8000, 4000⟩⟩ =
      .error (.httpException 400 "Corrupted or invalid WAV file.")
    ∧ validate_audio_file ⟨"clip.wav", 200, none⟩ =
      .error (.httpException 400 "Corrupted or invalid WAV file.") := by
  refine ⟨by decide, by decide, by decide, by decide, by decide⟩

/-- Claim C6: the validator applies extension, minimum-size and
maximum-size rules in that order with the documented reasons, and a
rejected submission yields the same 400 error for every job-id draw,
enqueues nothing, and leaves the store unchanged (validation completes
before the id is generated). -/
theorem claim6_validator_order_and_no_enqueue (file : UploadFile) :
    (¬ fileExt file.fname ∈ SUPPORTED_EXTENSIONS →
       validate_audio_file file =
         .error (.httpException 400 "Unsupported file type."))
    ∧ (fileExt file.fname ∈ SUPPORTED_EXTENSIONS →
       file.size < MIN_FILE_SIZE →
       validate_audio_file file =
         .error (.httpException 400 "File is empty or too small."))
    ∧ (fileExt file.fname ∈ SUPPORTED_EXTENSIONS →
       MIN_FILE_SIZE ≤ file.size → MAX_FILE_SIZE < file.size →
       validate_audio_file file =
         .error (.httpException 400 "File is too large."))
    ∧ (∀ e providerKey webhookUrl userId store,
       (PROVIDER_MAP_get providerKey).isSome →
       validate_audio_file file = .error e →
       ∀ freshId, transcribe_async store file providerKey webhookUrl userId
         freshId = (.error e, store)) := by
  refine ⟨?_, ?_, ?_, ?_⟩
  · intro h
    simp [validate_audio_file, h]
  · intro h1 h2
    have h0 : file.size = 0 ∨ file.size < MIN_FILE_SIZE := Or.inr h2
    simp [validate_audio_file, h1, h0]
  · intro h1 h2 h3
    have hmin : ¬ (file.size = 0 ∨ file.size < MIN_FILE_SIZE) := by
      simp only [MIN_FILE_SIZE] at h2 ⊢
      omega
    simp [validate_audio_file, h1, hmin, h3]
  · intro e providerKey webhookUrl userId store hp hv freshId
    simp [transcribe_async, hp, hv]

/-- Witness for claim C6 at concrete inputs: a `.txt` upload, an
undersized `.mp3`, an oversized `.mp3`, and a rejected submission that
reaches `transcribe_async` with known provider "openai". -/
theorem claim6_witness :
    validate_audio_file ⟨"notes.txt", 500, none⟩ =
      .error (.httpException 400 "Unsupported file type.")
    ∧ validate_audio_file ⟨"song.mp3", 50, none⟩ =
      .error (.httpException 400 "File is empty or too small.")
    ∧ validate_audio_file ⟨"song.mp3", 10485761, none⟩ =
      .error (.httpException 400 "File is too large.")
    ∧ transcribe_async [] ⟨"song.mp3", 50, none⟩ "openai" none none
        "id-0001" =
      (.error (.httpException 400 "File is empty or too small."), []) := by
  refine ⟨?_, ?_, ?_, ?_⟩
  · exact (claim6_validator_order_and_no_enqueue _).1 (by decide)
  · exact (claim6_validator_order_and_no_enqueue _).2.1 (by decide) (by decide)
  · exact (claim6_validator_order_and_no_enqueue _).2.2.1 (by decide)
      (by decide) (by decide)
  · exact (claim6_validator_order_and_no_enqueue _).2.2.2 _ _ _ _ _
      (by decide)
      ((claim6_validator_order_and_no_enqueue _).2.1 (by decide) (by decide))
      "id-0001"

/-- Claim C7: a file whose (lower-cased) extension is in the allow-list
but is not `.wav` is admitted on size alone — for every possible WAV
header field content, that is, with no header inspection at all. -/
theorem claim7_nonwav_skips_header (file : UploadFile)
    (h1 : fileExt file.fname ∈ SUPPORTED_EXTENSIONS)
    (h2 : fileExt file.fname ≠ ".wav")
    (h3 : MIN_FILE_SIZE ≤ file.size)
    (h4 : file.size ≤ MAX_FILE_SIZE) :
    validate_audio_file file = .ok file.size := by
  have hmin : ¬ (file.size = 0 ∨ file.size < MIN_FILE_SIZE) := by
    simp only [MIN_FILE_SIZE] at h3 ⊢
    omega
  have hmax : ¬ (file.size > MAX_FILE_SIZE) := by omega
  simp [validate_audio_file, h1, h2, hmin, hmax]

/-- Witness for claim C7: a 5000-byte `.mp3` is admitted both when its
bytes do not parse as a WAV header at all and when they would parse to a
header violating every WAV rule. -/
theorem claim7_witness :
    validate_audio_file ⟨"song.mp3", 5000, none⟩ = .ok 5000
    ∧ validate_audio_file ⟨"song.mp3", 5000, some ⟨0, 0⟩⟩ = .ok 5000 := by
  exact ⟨claim7_nonwav_skips_header _ (by decide) (by decide) (by decide)
      (by decide),
    claim7_nonwav_skips_header _ (by decide) (by decide) (by decide)
      (by decide)⟩

/-- Claim C8: a submission naming a provider key outside the registry is
rejected with 400 "Unknown provider." for every file, every id draw and
every store; no response payload or task message exists and the store is
returned unchanged. -/
theorem claim8_unknown_provider_rejected (providerKey : String)
    (h : PROVIDER_MAP_get providerKey = none)
    (store : List Row) (file : UploadFile) (webhookUrl userId : Option String)
    (freshId : String) :
    transcribe_async store file providerKey webhookUrl userId freshId =
      (.error (.httpException 400 "Unknown provider."), store) := by
  simp [transcribe_async, h]

/-- Witness for claim C8: the unregistered key "whisperx" is rejected
even for a perfectly valid upload. -/
theorem claim8_witness :
    transcribe_async [] ⟨"song.mp3", 5000, none⟩ "whisperx" none none
      "id-0002" =
    (.error (.httpException 400 "Unknown provider."), []) :=
  claim8_unknown_provider_rejected "whisperx" (by decide) [] _ none none
    "id-0002"

/-! ## Claims about the provider abstraction -/

/-- Python `OpenAIProvider.transcribe` returns normally on every input and
every SDK behaviour of the guarded call, PROVIDED the unguarded client
construction does not raise. -/
theorem openai_transcribe_total (env : Env) (ora : ProviderOracles)
    (audioBytes : List Nat) (filename : String)
    (hctor : ∃ u, ora.openaiClientCtor = Except.ok u) :
    ∃ r, openai_transcribe env ora audioBytes filename = Except.ok r := by
  unfold openai_transcribe
  by_cases h : env.OPENAI_API_KEY.isEmpty
  · exact ⟨none, by simp [h]⟩
  · obtain ⟨u, hu⟩ := hctor
    cases hc : ora.openaiCreate audioBytes filename with
    | ok t => exact ⟨some t, by simp [h, hu, hc]⟩
    | error e => exact ⟨none, by simp [h, hu, hc]⟩

/-- Python `OpenAIProvider.transcribe` propagates a client-construction
exception: the `OpenAI(...)` statement is outside the `try`. -/
theorem openai_transcribe_ctor_escapes (env : Env) (ora : ProviderOracles)
    (audioBytes : List Nat) (filename : String) (e : String)
    (hkey : env.OPENAI_API_KEY.isEmpty = false)
    (hctor : ora.openaiClientCtor = Except.error e) :
    openai_transcribe env ora audioBytes filename = Except.error e := by
  simp [openai_transcribe, hkey, hctor]

/-- Python `ElevenLabsProvider.transcribe` returns normally on every input and
every SDK behaviour. -/
theorem elevenlabs_transcribe_total (env : Env) (ora : ProviderOracles)
    (audioBytes : List Nat) (filename : String) :
    ∃ r, elevenlabs_transcribe env ora audioBytes filename = Except.ok r := by
  unfold elevenlabs_transcribe
  by_cases h : env.ELEVENLABS_API_KEY.isEmpty
  · exact ⟨none, by simp [h]⟩
  · cases hc : ora.elevenlabsSpeechToText audioBytes filename with
    | ok entry => exact ⟨entry, by simp [h, hc]⟩
    | error e => exact ⟨none, by simp [h, hc]⟩

/-- Python `GoogleProvider.transcribe` returns normally on every input and
every network behaviour (including 4xx/5xx responses and malformed
response bodies). -/
theorem google_transcribe_total (env : Env) (ora : ProviderOracles)
    (audioBytes : List Nat) (filename : String) :
    ∃ r, google_transcribe env ora audioBytes filename = Except.ok r := by
  unfold google_transcribe
  by_cases h : env.GOOGLE_API_KEY.isEmpty
  · exact ⟨some "Google STT (demo): This is a fake transcript.", by simp [h]⟩
  · simp only [h, if_false, Bool.false_eq_true]
    cases hp : ora.googlePost audioBytes with
    | error e => exact ⟨none, by simp [hp, Bind.bind, Except.bind]⟩
    | ok resp =>
      by_cases hs : 400 ≤ resp.statusCode
      · exact ⟨none, by simp [hp, hs, Bind.bind, Except.bind, throw,
          throwThe, MonadExceptOf.throw]⟩
      · cases he : resp.extractTranscript with
        | ok t => exact ⟨some t, by simp [hp, hs, he, Bind.bind, Except.bind,
            pure, Pure.pure, Except.pure]⟩
        | error e => exact ⟨none, by simp [hp, hs, he, Bind.bind, Except.bind,
            pure, Pure.pure, Except.pure]⟩

/-- Python `AWSProvider.transcribe` returns normally on every input and every
SDK behaviour. -/
theorem aws_transcribe_total (env : Env) (ora : ProviderOracles)
    (audioBytes : List Nat) (filename : String) :
    ∃ r, aws_transcribe env ora audioBytes filename = Except.ok r := by
  unfold aws_transcribe
  by_cases h : (env.AWS_ACCESS_KEY_ID.isEmpty ||
      env.AWS_SECRET_ACCESS_KEY.isEmpty) = true
  · exact ⟨some "AWS Transcribe (demo): This is a fake transcript.",
      by simp [h]⟩
  · simp only [h, if_false, Bool.false_eq_true]
    cases hb : ora.botoClients with
    | error e => exact ⟨none, by simp [hb, Bind.bind, Except.bind]⟩
    | ok u =>
      cases hp : ora.s3PutObject audioBytes
          ("uploads/" ++ ora.uuidA ++ "_" ++ filename) with
      | error e => exact ⟨none, by simp [hb, hp, Bind.bind, Except.bind]⟩
      | ok v =>
        cases hj : ora.startTranscriptionJob ("job-" ++ ora.uuidB) with
        | error e => exact ⟨none, by simp [hb, hp, hj, Bind.bind, Except.bind]⟩
        | ok w => exact ⟨some ("AWS Transcribe job started: " ++
            ("job-" ++ ora.uuidB) ++ " (polling not implemented in demo)"),
            by simp [hb, hp, hj, Bind.bind, Except.bind, pure, Pure.pure,
              Except.pure]⟩

/-- Claim C3, counterexample: the provider registered under "openai"
CAN raise past the boundary of `transcribe` — with a key set, an
`OpenAI(api_key=...)` construction that raises (it sits outside the
`try/except` in the source) propagates its exception out of the call,
refuting "never raises" at a concrete input. -/
theorem claim3_counterexample :
    PROVIDER_MAP_get "openai" = some ProviderName.openai
    ∧ provider_transcribe ProviderName.openai
        ⟨"sk-test", "", "", "", ""⟩
        ⟨Except.error "OpenAIError: malformed proxy configuration",
         fun _ _ => Except.ok "text",
         fun _ _ => Except.ok (some "text"),
         fun _ => Except.ok ⟨200, Except.ok "text"⟩,
         Except.ok (),
         fun _ _ => Except.ok (),
         fun _ => Except.ok (), "u1", "u2"⟩
        [1, 2, 3] "a.mp3" =
      Except.error "OpenAIError: malformed proxy configuration" :=
  ⟨by decide, by rfl⟩

/-- Claim C3 as amended: every provider registered in `PROVIDER_MAP`
returns normally from `transcribe` on every input, every environment
and every behaviour of the external SDK / network — all failures in the
guarded calls are converted to an absent (or placeholder) result inside
the implementation — with the single exception of `OpenAIProvider`'s
client construction, which sits outside its `try/except`: provided that
construction returns normally, no provider raises. -/
theorem claim3_amended_never_raise_if_openai_ctor_ok (key : String)
    (p : ProviderName) (h : PROVIDER_MAP_get key = some p)
    (env : Env) (ora : ProviderOracles) (audioBytes : List Nat)
    (filename : String)
    (hctor : p = ProviderName.openai →
      ∃ u, ora.openaiClientCtor = Except.ok u) :
    ∃ r, provider_transcribe p env ora audioBytes filename = Except.ok r := by
  cases p with
  | openai =>
    exact openai_transcribe_total env ora audioBytes filename (hctor rfl)
  | elevenlabs => exact elevenlabs_transcribe_total env ora audioBytes filename
  | google => exact google_transcribe_total env ora audioBytes filename
  | aws => exact aws_transcribe_total env ora audioBytes filename

/-- Witness for the amended claim C3: the provider registered under
"openai", with a key set, a client construction that succeeds, and an
API call that times out, returns normally (with an absent result). -/
theorem claim3_witness :
    ∃ r, provider_transcribe ProviderName.openai
      ⟨"sk-test", "", "", "", ""⟩
      ⟨Except.ok (),
       fun _ _ => Except.error "timeout",
       fun _ _ => Except.error "timeout",
       fun _ => Except.error "timeout",
       Except.error "timeout",
       fun _ _ => Except.error "timeout",
       fun _ => Except.error "timeout", "u1", "u2"⟩
      [1, 2, 3] "a.mp3" = Except.ok r :=
  claim3_amended_never_raise_if_openai_ctor_ok "openai" ProviderName.openai
    (by decide)
    ⟨"sk-test", "", "", "", ""⟩
    ⟨Except.ok (),
     fun _ _ => Except.error "timeout",
     fun _ _ => Except.error "timeout",
     fun _ => Except.error "timeout",
     Except.error "timeout",
     fun _ _ => Except.error "timeout",
     fun _ => Except.error "timeout", "u1", "u2"⟩
    [1, 2, 3] "a.mp3"
    (fun _ => ⟨(), rfl⟩)

/-! ## Claims about the worker -/

/-- Python `llm_summary` always returns normally. -/
theorem llm_summary_total (apiKey : String) (oracleLLM : String → Py String)
    (text : String) :
    ∃ v, llm_summary apiKey oracleLLM text = Except.ok v := by
  unfold llm_summary
  by_cases h : (apiKey.isEmpty || text.isEmpty) = true
  · exact ⟨none, by simp [h]⟩
  · cases hc : oracleLLM text with
    | ok content => exact ⟨some content.trim, by simp [h, hc]⟩
    | error e => exact ⟨none, by simp [h, hc]⟩

/-- Python `llm_summary` computes `llmVal` without raising. -/
theorem llm_summary_eq (apiKey : String) (oracleLLM : String → Py String)
    (text : String) :
    llm_summary apiKey oracleLLM text =
      Except.ok (llmVal apiKey oracleLLM text) := by
  obtain ⟨v, hv⟩ := llm_summary_total apiKey oracleLLM text
  rw [hv]
  unfold llmVal
  rw [hv]

/-- Attempt outcome when `transcribe` returns `None`. -/
theorem process_attempt_ok_none (args : JobArgs)
    (summarize : String → Py (Option String))
    (net : String → WebhookPayload → Py Unit) (retries : Nat) :
    process_attempt args (.ok none) summarize net retries =
      .finalized (finalRow args "failed" none none)
        (webhookPosts net args "failed" none none) := rfl

/-- Attempt outcome when `transcribe` returns the empty string. -/
theorem process_attempt_ok_empty (args : JobArgs)
    (summarize : String → Py (Option String))
    (net : String → WebhookPayload → Py Unit) (retries : Nat) :
    process_attempt args (.ok (some "")) summarize net retries =
      .finalized (finalRow args "failed" (some "") none)
        (webhookPosts net args "failed" (some "") none) := by
  have he : ("" : String).isEmpty = true := rfl
  simp [process_attempt, he]

/-- Attempt outcome when `transcribe` returns non-empty text and the
summarizer returns normally. -/
theorem process_attempt_ok_text (args : JobArgs)
    (summarize : String → Py (Option String))
    (net : String → WebhookPayload → Py Unit) (retries : Nat)
    (s : String) (summ : Option String)
    (hs : s.isEmpty = false) (hsum : summarize s = .ok summ) :
    process_attempt args (.ok (some s)) summarize net retries =
      .finalized (finalRow args "completed" (some s) summ)
        (webhookPosts net args "completed" (some s) summ) := by
  simp [process_attempt, hs, hsum]

/-- Attempt outcome when `transcribe` raises: `self.retry`, hence no
store write and no webhook in this attempt. -/
theorem process_attempt_transient (args : JobArgs)
    (summarize : String → Py (Option String))
    (net : String → WebhookPayload → Py Unit) (retries : Nat) (e : String) :
    process_attempt args (.error e) summarize net retries =
      if retries < MAX_RETRIES then .retryScheduled e else .crashed e := rfl

/-- Whenever an attempt finalizes, its webhook POSTs are exactly the
`webhookPosts` step applied to the finalized row's fields. -/
theorem process_attempt_finalized_inv (args : JobArgs)
    (trRes : Py (Option String)) (summarize : String → Py (Option String))
    (net : String → WebhookPayload → Py Unit) (retries : Nat)
    (row : Row) (posts : List (String × WebhookPayload))
    (h : process_attempt args trRes summarize net retries =
      .finalized row posts) :
    posts = webhookPosts net args row.status row.text row.summary := by
  unfold process_attempt at h
  cases trRes with
  | error e =>
    by_cases hr : retries < MAX_RETRIES <;> simp [hr] at h
  | ok t =>
    cases t with
    | none =>
      simp only [AttemptResult.finalized.injEq] at h
      obtain ⟨h1, h2⟩ := h
      subst h1
      subst h2
      rfl
    | some s =>
      by_cases he : s.isEmpty
      · simp only [he, if_true, AttemptResult.finalized.injEq] at h
        obtain ⟨h1, h2⟩ := h
        subst h1
        subst h2
        rfl
      · cases hsum : summarize s with
        | error e =>
          simp only [he, if_false, hsum, Bool.false_eq_true] at h
          by_cases hr : retries < MAX_RETRIES <;> simp [hr] at h
        | ok summ =>
          simp only [he, if_false, hsum, Bool.false_eq_true,
            AttemptResult.finalized.injEq] at h
          obtain ⟨h1, h2⟩ := h
          subst h1
          subst h2
          rfl

/-- Claim C4: with the real summarizer (`llm_summary`, over every API
key and every LLM behaviour, including failing ones), an attempt whose
`transcribe` returns non-empty text finalizes as `completed` with that
text and whatever summary `llm_summary` produced (absent on summarizer
failure), and an attempt whose `transcribe` returns absent finalizes as
`failed` with no text and no summary. -/
theorem claim4_status_follows_transcribe (args : JobArgs) (apiKey : String)
    (oracleLLM : String → Py String)
    (net : String → WebhookPayload → Py Unit) (retries : Nat) :
    (∀ s : String, s.isEmpty = false →
      process_attempt args (.ok (some s)) (llm_summary apiKey oracleLLM)
          net retries =
        .finalized
          (finalRow args "completed" (some s) (llmVal apiKey oracleLLM s))
          (webhookPosts net args "completed" (some s)
            (llmVal apiKey oracleLLM s)))
    ∧ process_attempt args (.ok none) (llm_summary apiKey oracleLLM)
        net retries =
      .finalized (finalRow args "failed" none none)
        (webhookPosts net args "failed" none none) := by
  constructor
  · intro s hs
    exact process_attempt_ok_text args _ net retries s _ hs
      (llm_summary_eq apiKey oracleLLM s)
  · exact process_attempt_ok_none args _ net retries

/-- Witness for claim C4: with an unset API key the summarizer fails
(returns absent), yet a "hello" transcription still finalizes as
`completed` with the text and no summary; an absent transcription
finalizes as `failed`. -/
theorem claim4_witness :
    llmVal "" (fun _ => Except.error "LLM down") "hello" = none
    ∧ process_attempt ⟨"job-1", "a.mp3", "openai", none, none⟩
        (.ok (some "hello"))
        (llm_summary "" (fun _ => Except.error "LLM down"))
        (fun _ _ => Except.ok ()) 0 =
      .finalized
        (finalRow ⟨"job-1", "a.mp3", "openai", none, none⟩ "completed"
          (some "hello") (llmVal "" (fun _ => Except.error "LLM down") "hello"))
        (webhookPosts (fun _ _ => Except.ok ())
          ⟨"job-1", "a.mp3", "openai", none, none⟩ "completed"
          (some "hello") (llmVal "" (fun _ => Except.error "LLM down") "hello"))
    ∧ process_attempt ⟨"job-1", "a.mp3", "openai", none, none⟩ (.ok none)
        (llm_summary "" (fun _ => Except.error "LLM down"))
        (fun _ _ => Except.ok ()) 0 =
      .finalized (finalRow ⟨"job-1", "a.mp3", "openai", none, none⟩
          "failed" none none)
        (webhookPosts (fun _ _ => Except.ok ())
          ⟨"job-1", "a.mp3", "openai", none, none⟩ "failed" none none) :=
  ⟨rfl,
   (claim4_status_follows_transcribe ⟨"job-1", "a.mp3", "openai", none, none⟩
      "" (fun _ => Except.error "LLM down") (fun _ _ => Except.ok ()) 0).1
     "hello" (by decide),
   (claim4_status_follows_transcribe ⟨"job-1", "a.mp3", "openai", none, none⟩
      "" (fun _ => Except.error "LLM down") (fun _ _ => Except.ok ()) 0).2⟩

/-- Claim C10: an attempt whose `transcribe` returns the empty string —
present but empty — finalizes as `failed` with no summary, for EVERY
summarizer (so no summarizer call can influence it): the worker decides
by Python truthiness, treating `""` like an absent result. -/
theorem claim10_empty_text_is_failed (args : JobArgs)
    (summarize : String → Py (Option String))
    (net : String → WebhookPayload → Py Unit) (retries : Nat) :
    process_attempt args (.ok (some "")) summarize net retries =
      .finalized (finalRow args "failed" (some "") none)
        (webhookPosts net args "failed" (some "") none) :=
  process_attempt_ok_empty args summarize net retries

/-- Claim C5: on every attempt that finalizes, the webhook POSTs are
exactly one POST of `{job_id, status, text, summary}` to the supplied
URL when `webhook_url` is truthy and none otherwise; and `send_webhook`
itself makes exactly one POST attempt and returns normally whatever the
network does (failures swallowed, never propagated, never retried). -/
theorem claim5_notifier_iff_webhook (args : JobArgs)
    (trRes : Py (Option String)) (summarize : String → Py (Option String))
    (net : String → WebhookPayload → Py Unit) (retries : Nat) :
    (∀ row posts,
      process_attempt args trRes summarize net retries =
        .finalized row posts →
      posts = (if pyTruthyStr args.webhook_url then
          [(args.webhook_url.getD "",
            ⟨args.job_id, row.status, row.text, row.summary⟩)]
        else []))
    ∧ (∀ u p, send_webhook net u p = (Except.ok (), [(u, p)])) := by
  constructor
  · intro row posts h
    rw [process_attempt_finalized_inv args trRes summarize net retries
      row posts h, webhookPosts_eq]
  · exact fun u p => send_webhook_eq net u p

/-- Witness for claim C5: a finalizing attempt with a webhook URL posts
exactly once even though the network times out, and `send_webhook`
swallows the failure. -/
theorem claim5_witness :
    [("http://cb.example/h", WebhookPayload.mk "job-9" "failed" none none)] =
      (if pyTruthyStr
          (JobArgs.mk "job-9" "b.wav" "google" (some "http://cb.example/h")
            (some "u7")).webhook_url then
        [((JobArgs.mk "job-9" "b.wav" "google" (some "http://cb.example/h")
            (some "u7")).webhook_url.getD "",
          ⟨"job-9",
           (finalRow ⟨"job-9", "b.wav", "google", some "http://cb.example/h",
              some "u7"⟩ "failed" none none).status,
           (finalRow ⟨"job-9", "b.wav", "google", some "http://cb.example/h",
              some "u7"⟩ "failed" none none).text,
           (finalRow ⟨"job-9", "b.wav", "google", some "http://cb.example/h",
              some "u7"⟩ "failed" none none).summary⟩)]
       else [])
    ∧ send_webhook (fun _ _ => Except.error "timeout") "http://cb.example/h"
        ⟨"job-9", "failed", none, none⟩ =
      (Except.ok (), [("http://cb.example/h",
        ⟨"job-9", "failed", none, none⟩)]) :=
  ⟨(claim5_notifier_iff_webhook
      ⟨"job-9", "b.wav", "google", some "http://cb.example/h", some "u7"⟩
      (.ok none) (fun _ => Except.ok none) (fun _ _ => Except.error "timeout")
      0).1
     (finalRow ⟨"job-9", "b.wav", "google", some "http://cb.example/h",
        some "u7"⟩ "failed" none none)
     [("http://cb.example/h", ⟨"job-9", "failed", none, none⟩)]
     (by decide),
   (claim5_notifier_iff_webhook
      ⟨"job-9", "b.wav", "google", some "http://cb.example/h", some "u7"⟩
      (.ok none) (fun _ => Except.ok none) (fun _ _ => Except.error "timeout")
      0).2
     "http://cb.example/h" ⟨"job-9", "failed", none, none⟩⟩

/-- Lemma: an attempt that raises while retries remain schedules a
retry, so the run proceeds to the next attempt with nothing written. -/
theorem runJobFrom_step (tr : Nat → Py (Option String)) (args : JobArgs)
    (summarize : String → Py (Option String))
    (net : String → WebhookPayload → Py Unit)
    (budget retries : Nat) (writes : List Row)
    (posts : List (String × WebhookPayload)) (e : String)
    (h : tr retries = Except.error e) (hr : retries < MAX_RETRIES) :
    runJobFrom tr args summarize net (budget + 1) retries writes posts =
      runJobFrom tr args summarize net budget (retries + 1) writes posts := by
  simp [runJobFrom, process_attempt, h, hr, attemptWrites, attemptPosts]

/-- Lemma: an attempt that raises with retries exhausted crashes the
task: nothing further is written. -/
theorem runJobFrom_crash (tr : Nat → Py (Option String)) (args : JobArgs)
    (summarize : String → Py (Option String))
    (net : String → WebhookPayload → Py Unit)
    (budget retries : Nat) (writes : List Row)
    (posts : List (String × WebhookPayload)) (e : String)
    (h : tr retries = Except.error e) (hr : ¬ retries < MAX_RETRIES) :
    runJobFrom tr args summarize net budget retries writes posts =
      (.crashed e, writes, posts) := by
  cases budget <;>
    simp [runJobFrom, process_attempt, h, hr, attemptWrites, attemptPosts]

/-- Claim C1, counterexample: a provider raising a transient error on
every attempt (up to the maximum of 3 retries) produces ZERO Job Store
writes — not the claimed exactly-one `failed` finalization — because
`self.retry` raises, skipping the persistence code, and on the final
attempt re-raises the exception, terminating the task. -/
theorem claim1_counterexample :
    runJob (fun _ => Except.error "ConnectionError")
      ⟨"job-1", "a.mp3", "openai", some "http://cb.example/hook", none⟩
      (fun _ => Except.ok none) (fun _ _ => Except.ok ()) =
    (.crashed "ConnectionError", [], []) := by decide

/-- Claim C1 as amended: when `Provider.transcribe` raises a transient
error on every attempt up to the retry limit, NO finalization write
occurs for the job — the final `self.retry` re-raises the exception and
the task terminates with no terminal row and no webhook POST. -/
theorem claim1_amended_exhaustion_drops_job (args : JobArgs)
    (summarize : String → Py (Option String))
    (net : String → WebhookPayload → Py Unit)
    (tr : Nat → Py (Option String))
    (h : ∀ n, ∃ e, tr n = Except.error e) :
    ∃ e, runJob tr args summarize net = (.crashed e, [], []) := by
  obtain ⟨e0, h0⟩ := h 0
  obtain ⟨e1, h1⟩ := h 1
  obtain ⟨e2, h2⟩ := h 2
  obtain ⟨e3, h3⟩ := h 3
  refine ⟨e3, ?_⟩
  have s1 : runJob tr args summarize net =
      runJobFrom tr args summarize net 3 1 [] [] := by
    unfold runJob
    exact runJobFrom_step tr args summarize net 3 0 [] [] e0 h0 (by decide)
  have s2 : runJobFrom tr args summarize net 3 1 [] [] =
      runJobFrom tr args summarize net 2 2 [] [] :=
    runJobFrom_step tr args summarize net 2 1 [] [] e1 h1 (by decide)
  have s3 : runJobFrom tr args summarize net 2 2 [] [] =
      runJobFrom tr args summarize net 1 3 [] [] :=
    runJobFrom_step tr args summarize net 1 2 [] [] e2 h2 (by decide)
  have s4 : runJobFrom tr args summarize net 1 3 [] [] =
      (.crashed e3, [], []) :=
    runJobFrom_crash tr args summarize net 1 3 [] [] e3 h3 (by decide)
  rw [s1, s2, s3, s4]

/-- Witness for the amended claim C1 at a concrete always-failing
provider. -/
theorem claim1_witness :
    ∃ e, runJob (fun _ => Except.error "boom")
      ⟨"job-2", "b.mp3", "google", none, none⟩
      (fun _ => Except.ok none) (fun _ _ => Except.ok ()) =
    (.crashed e, [], []) :=
  claim1_amended_exhaustion_drops_job
    ⟨"job-2", "b.mp3", "google", none, none⟩
    (fun _ => Except.ok none) (fun _ _ => Except.ok ())
    (fun _ => Except.error "boom")
    (fun _ => ⟨"boom", rfl⟩)

/-! ## Claims about the Job Store -/

/-- A store with no row matching an id keeps no such row under the
replacement map. -/
theorem filter_map_replace_nil (t : List Row) (r : Row)
    (h : t.filter (fun x => x.id = r.id) = []) :
    (t.map (fun x => if x.id = r.id then r else x)).filter
      (fun x => x.id = r.id) = [] := by
  rw [List.filter_eq_nil_iff] at h ⊢
  intro y hy
  obtain ⟨x, hx, hxy⟩ := List.mem_map.mp hy
  have hxid := h x hx
  simp only [decide_eq_true_eq] at hxid
  rw [if_neg hxid] at hxy
  subst hxy
  simp [hxid]

/-- Upserting a row into a store holding at most one row with its id
leaves exactly that row under the id. -/
theorem upsert_filter_eq (s : List Row) (r : Row)
    (h : (s.filter (fun x => x.id = r.id)).length ≤ 1) :
    (upsertRow s r).filter (fun x => x.id = r.id) = [r] := by
  induction s with
  | nil => simp [upsertRow]
  | cons a t ih =>
    by_cases hpa : a.id = r.id
    · -- the head matches, so by the length bound the tail has no match
      have hany : (a :: t).any (fun x => x.id = r.id) = true := by
        simp [hpa]
      have htail : t.filter (fun x => x.id = r.id) = [] := by
        rw [List.filter_cons] at h
        simp only [hpa, decide_True, if_true] at h
        exact List.length_eq_zero.mp (Nat.le_zero.mp (Nat.le_of_succ_le_succ h))
      rw [upsertRow, if_pos hany, List.map_cons, if_pos hpa,
        List.filter_cons, if_pos (by simp)]
      rw [filter_map_replace_nil t r htail]
    · by_cases hat : t.any (fun x => x.id = r.id)
      · -- the match sits in the tail: replacement happens there
        have hany : (a :: t).any (fun x => x.id = r.id) = true := by
          simp [hat]
        have hht : (t.filter (fun x => x.id = r.id)).length ≤ 1 := by
          rw [List.filter_cons] at h
          simpa [hpa] using h
        have hit := ih hht
        rw [upsertRow, if_pos hat] at hit
        rw [upsertRow, if_pos hany, List.map_cons, if_neg hpa,
          List.filter_cons, if_neg (by simp [hpa]), hit]
      · -- no match anywhere: the row is appended
        have hnone : (a :: t).any (fun x => x.id = r.id) = false := by
          apply Bool.eq_false_iff.mpr
          intro hc
          rcases List.any_eq_true.mp hc with ⟨x, hx, hpx⟩
          rcases List.mem_cons.mp hx with hxa | hxt
          · subst hxa
            simp [hpa] at hpx
          · exact absurd (List.any_eq_true.mpr ⟨x, hxt, hpx⟩) hat
        have htail : t.filter (fun x => x.id = r.id) = [] := by
          rw [List.filter_eq_nil_iff]
          intro x hx hpx
          exact hat (List.any_eq_true.mpr ⟨x, hx, hpx⟩)
        rw [upsertRow, if_neg (by simp [hnone]), List.cons_append,
          List.filter_cons, if_neg (by simp [hpa]), List.filter_append,
          htail, List.filter_cons, if_pos (by simp)]
        simp

/-- When the rows matching an id reduce to a single row, `getById`
returns it. -/
theorem getById_of_filter_singleton (s : List Row) (i : String) (r : Row)
    (h : s.filter (fun x => x.id = i) = [r]) :
    getById s i = some r := by
  induction s with
  | nil => simp at h
  | cons a t ih =>
    by_cases hpa : a.id = i
    · rw [List.filter_cons, if_pos (by simp [hpa])] at h
      have ha := List.head_eq_of_cons_eq h
      unfold getById
      rw [List.find?_cons_of_pos t (by simp [hpa]), ha]
    · rw [List.filter_cons, if_neg (by simp [hpa])] at h
      have hrec := ih h
      unfold getById
      rw [List.find?_cons_of_neg t (by simp [hpa])]
      exact hrec

/-- Claim C9: two upserts for the same job id against a store holding at
most one row for that id (the invariant every upsert-built store
satisfies) leave exactly one row for the id, holding the values of the
most recent write. -/
theorem claim9_upsert_last_write_wins (store : List Row) (r1 r2 : Row)
    (hid : r1.id = r2.id)
    (hstore : (store.filter (fun x => x.id = r2.id)).length ≤ 1) :
    (upsertRow (upsertRow store r1) r2).filter (fun x => x.id = r2.id) = [r2]
    ∧ getById (upsertRow (upsertRow store r1) r2) r2.id = some r2 := by
  have h1 : (upsertRow store r1).filter (fun x => x.id = r1.id) = [r1] :=
    upsert_filter_eq store r1 (by rw [hid]; exact hstore)
  have h1b : (upsertRow store r1).filter (fun x => x.id = r2.id) = [r1] := by
    rw [← hid]
    exact h1
  have h2 : (upsertRow (upsertRow store r1) r2).filter
      (fun x => x.id = r2.id) = [r2] :=
    upsert_filter_eq (upsertRow store r1) r2 (by rw [h1b]; simp)
  exact ⟨h2, getById_of_filter_singleton _ _ _ h2⟩

/-- Witness for claim C9: a retried finalize overwriting a first write
in an initially empty store leaves one row with the second write's
values. -/
theorem claim9_witness :
    (upsertRow (upsertRow []
        ⟨"job-7", "c.ogg", "aws", "failed", none, none, none, none⟩)
        ⟨"job-7", "c.ogg", "aws", "completed", some "text", some "sum",
          none, none⟩).filter
      (fun x => x.id = "job-7") =
      [⟨"job-7", "c.ogg", "aws", "completed", some "text", some "sum",
        none, none⟩]
    ∧ getById (upsertRow (upsertRow []
        ⟨"job-7", "c.ogg", "aws", "failed", none, none, none, none⟩)
        ⟨"job-7", "c.ogg", "aws", "completed", some "text", some "sum",
          none, none⟩) "job-7" =
      some ⟨"job-7", "c.ogg", "aws", "completed", some "text", some "sum",
        none, none⟩ :=
  claim9_upsert_last_write_wins []
    ⟨"job-7", "c.ogg", "aws", "failed", none, none, none, none⟩
    ⟨"job-7", "c.ogg", "aws", "completed", some "text", some "sum",
      none, none⟩
    (by decide) (by decide)

end SpeechProxy
